import Mathlib

/-!
# Verification of the TRAM acceptance-aggregation core (`tram/models.py`)

A shallow embedding of the Django models module of the repository.  Database
tables become lists of records, Django's auto-increment primary keys become
explicit `id : Nat` fields, nullable foreign keys become `Option Nat`, and the
`disposition` column (`accept` / `reject` / NULL) becomes `Option Disposition`.
Automatic timestamp columns (`created_on` / `updated_on`) and the user foreign
keys are omitted: no modelled operation reads or writes them.  `FloatField`
confidence scores are modelled as rationals; no modelled operation computes
with them, they are only stored and copied.

The Django ORM operations used by the module are embedded as follows:

* `annotate(Count('sentences', filter=Q(...)))` over the many-to-many relation
  through `SentenceTechniqueMapping`: one LEFT JOIN row per mapping row whose
  `attack_technique` column equals the technique and whose `sentence` foreign
  key resolves.  `Count` without `distinct=True` counts every such join row.
* `.order_by('-accepted_sentences', 'attack_id')`: a sort by the relation
  `countOrder` (accepted count descending, `attack_id` ascending on ties).
* `.filter(accepted_sentences__gte=accept_threshold)`: a list `filter`.
* `objects.get(attack_id=...)`: returns the unique matching row, raises
  `DoesNotExist` when there is none, `MultipleObjectsReturned` when several.
* `filter(attack_technique__in=qs)`: SQL `IN` — a NULL foreign key never
  matches.
-/

/-- The non-NULL values of the `disposition` column (`DISPOSITION_CHOICES`);
the column itself is nullable, so a sentence carries an `Option Disposition`. -/
inductive Disposition where
  | accept
  | reject
deriving DecidableEq, Repr

/-- Python exceptions raised by the embedded operations. -/
inductive PyError where
  | AttributeError (cls attr : String)
  | DoesNotExist (cls : String)
  | MultipleObjectsReturned (cls : String)
  | AssertionError
  | FileNotFoundError (path : String)
deriving DecidableEq, Repr

/-- `class AttackTechnique` (id, name, stix_id, attack_id, attack_url, matrix). -/
structure AttackTechnique where
  id : Nat
  name : String
  stix_id : String
  attack_id : String
  attack_url : String
  matrix : String
deriving DecidableEq, Repr

/-- `class AttackGroup` (same columns as `AttackTechnique`). -/
structure AttackGroup where
  id : Nat
  name : String
  stix_id : String
  attack_id : String
  attack_url : String
  matrix : String
deriving DecidableEq, Repr

/-- `class Document`: `docfile` is the backing file reference. -/
structure Document where
  id : Nat
  docfile : String
deriving DecidableEq, Repr

/-- `class DocumentProcessingJob`: `status` defaults to `"queued"`. -/
structure DocumentProcessingJob where
  id : Nat
  document : Nat
  status : String
  message : String
deriving DecidableEq, Repr

/-- `class Report`: `document` is a nullable foreign key. -/
structure Report where
  id : Nat
  name : String
  document : Option Nat
  text : String
deriving DecidableEq, Repr

/-- `class Sentence`: `disposition` is nullable (`None` = pending). -/
structure Sentence where
  id : Nat
  text : String
  document : Option Nat
  order : Int
  report : Nat
  disposition : Option Disposition
deriving DecidableEq, Repr

/-- `class SentenceTechniqueMapping`: `attack_technique` is nullable. -/
structure SentenceTechniqueMapping where
  report : Nat
  sentence : Nat
  attack_technique : Option Nat
  confidence : Rat
deriving DecidableEq, Repr

/-- `class SentenceGroupMapping`: `attack_group` is nullable. -/
structure SentenceGroupMapping where
  report : Nat
  sentence : Nat
  attack_group : Option Nat
  confidence : Rat
deriving DecidableEq, Repr

/-- `class ReportTechniqueMapping`: `attack_technique` is NOT nullable. -/
structure ReportTechniqueMapping where
  report : Nat
  attack_technique : Nat
  confidence : Rat
deriving DecidableEq, Repr

/-- `class ReportGroupMapping`: `attack_group` is NOT nullable. -/
structure ReportGroupMapping where
  report : Nat
  attack_group : Nat
  confidence : Rat
deriving DecidableEq, Repr

/-- One database state: every table of the module as a list of rows. -/
structure DB where
  attack_techniques : List AttackTechnique
  attack_groups : List AttackGroup
  documents : List Document
  document_processing_jobs : List DocumentProcessingJob
  reports : List Report
  sentences : List Sentence
  sentence_technique_mappings : List SentenceTechniqueMapping
  sentence_group_mappings : List SentenceGroupMapping
  report_technique_mappings : List ReportTechniqueMapping
  report_group_mappings : List ReportGroupMapping
deriving DecidableEq, Repr

/-- Resolve a `sentence` foreign key to its row (the sentence side of the
LEFT JOIN through `SentenceTechniqueMapping`). -/
def DB.sentenceById (db : DB) (sid : Nat) : Option Sentence :=
  db.sentences.find? (fun s => s.id == sid)

/-- The join rows of `annotate(Count('sentences', ...))` for one technique:
one entry per `SentenceTechniqueMapping` row whose `attack_technique` column
equals this technique and whose `sentence` foreign key resolves.  Duplicate
mapping rows for the same sentence produce duplicate join rows (the source
uses `Count` without `distinct=True`). -/
def AttackTechnique.joinedSentences (db : DB) (t : AttackTechnique) : List Sentence :=
  db.sentence_technique_mappings.filterMap (fun m =>
    if m.attack_technique == some t.id then db.sentenceById m.sentence else none)

/-- `Count('sentences', filter=Q(sentences__disposition='accept'))`. -/
def AttackTechnique.accepted_sentences (db : DB) (t : AttackTechnique) : Nat :=
  (t.joinedSentences db).countP (fun s => s.disposition == some Disposition.accept)

/-- `Count('sentences', filter=Q(sentences__disposition=None))` — SQL
`disposition IS NULL`. -/
def AttackTechnique.pending_sentences (db : DB) (t : AttackTechnique) : Nat :=
  (t.joinedSentences db).countP (fun s => s.disposition == none)

/-- `Count('sentences')` — all join rows. -/
def AttackTechnique.total_sentences (db : DB) (t : AttackTechnique) : Nat :=
  (t.joinedSentences db).length

/-- An `AttackTechnique` row annotated with the three counts, as produced by
`AttackTechnique.get_sentence_counts`. -/
structure AnnotatedTechnique where
  technique : AttackTechnique
  accepted_sentences : Nat
  pending_sentences : Nat
  total_sentences : Nat
deriving DecidableEq, Repr

/-- The `annotate(...)` step of `get_sentence_counts`: every technique row,
annotated with its three counts (a single pass over one join). -/
def AttackTechnique.annotate (db : DB) (t : AttackTechnique) : AnnotatedTechnique :=
  { technique := t
    accepted_sentences := t.accepted_sentences db
    pending_sentences := t.pending_sentences db
    total_sentences := t.total_sentences db }

/-- The ordering of `.order_by('-accepted_sentences', 'attack_id')`:
accepted count descending, ties by `attack_id` ascending (lexicographic). -/
def countOrder (a b : AnnotatedTechnique) : Prop :=
  b.accepted_sentences < a.accepted_sentences ∨
    (a.accepted_sentences = b.accepted_sentences ∧
      a.technique.attack_id ≤ b.technique.attack_id)

instance : DecidableRel countOrder := fun a b =>
  inferInstanceAs (Decidable (b.accepted_sentences < a.accepted_sentences ∨
    (a.accepted_sentences = b.accepted_sentences ∧
      a.technique.attack_id ≤ b.technique.attack_id)))

instance : IsTotal AnnotatedTechnique countOrder := by
  constructor
  intro a b
  unfold countOrder
  rcases Nat.lt_trichotomy a.accepted_sentences b.accepted_sentences with h | h | h
  · right; left; exact h
  · rcases le_total a.technique.attack_id b.technique.attack_id with hs | hs
    · left; right; exact ⟨h, hs⟩
    · right; right; exact ⟨h.symm, hs⟩
  · left; left; exact h

instance : IsTrans AnnotatedTechnique countOrder := by
  constructor
  intro a b c h1 h2
  unfold countOrder at h1 h2 ⊢
  rcases h1 with h1 | ⟨e1, s1⟩ <;> rcases h2 with h2 | ⟨e2, s2⟩
  · left; omega
  · left; omega
  · left; omega
  · right; exact ⟨e1.trans e2, le_trans s1 s2⟩

/-- `AttackTechnique.get_sentence_counts(accept_threshold)`: annotate every
technique with its counts, order by accepted count descending then
`attack_id` ascending, and keep the rows with
`accepted_sentences >= accept_threshold`. -/
def AttackTechnique.get_sentence_counts (db : DB) (accept_threshold : Nat) :
    List AnnotatedTechnique :=
  (List.insertionSort countOrder
      (db.attack_techniques.map (AttackTechnique.annotate db))).filter
    (fun a => accept_threshold ≤ a.accepted_sentences)

/-- The process-wide constance configuration read by `get_accepted_mappings`. -/
structure Config where
  ML_ACCEPT_THRESHOLD : Nat
deriving DecidableEq, Repr

/-- `SentenceTechniqueMapping.get_accepted_mappings()`: the techniques meeting
the configured threshold via `get_sentence_counts`, then every mapping row
whose `attack_technique` is among them (`filter(attack_technique__in=...)`;
a NULL `attack_technique` never matches SQL `IN`). -/
def SentenceTechniqueMapping.get_accepted_mappings (db : DB) (config : Config) :
    List SentenceTechniqueMapping :=
  let attack_techniques :=
    AttackTechnique.get_sentence_counts db config.ML_ACCEPT_THRESHOLD
  db.sentence_technique_mappings.filter (fun m =>
    attack_techniques.any (fun a => m.attack_technique == some a.technique.id))

/-- `AttackTechnique.get_report_counts` is resolved dynamically by Python when
`ReportTechniqueMapping.get_accepted_mappings` runs, but the source never
defines any such attribute on `AttackTechnique` (its only classmethod is
`get_sentence_counts`), so the lookup yields nothing and raises
`AttributeError`.  The attribute is therefore embedded as `none`. -/
def AttackTechnique.get_report_counts? : Option (DB → Nat → List AnnotatedTechnique) :=
  none

/-- `AttackGroup.get_report_counts` is likewise never defined on `AttackGroup`
(the source gives that class no classmethods at all), so it is `none`. -/
def AttackGroup.get_report_counts? : Option (DB → Nat → List AttackGroup) :=
  none

/-- `ReportTechniqueMapping.get_accepted_mappings()`: the source calls
`AttackTechnique.get_report_counts(accept_threshold=config.ML_ACCEPT_THRESHOLD)`
and then filters `attack_technique__in` the result.  Python attribute lookup is
embedded via `AttackTechnique.get_report_counts?`. -/
def ReportTechniqueMapping.get_accepted_mappings (db : DB) (config : Config) :
    Except PyError (List ReportTechniqueMapping) :=
  match AttackTechnique.get_report_counts? with
  | none => .error (.AttributeError "AttackTechnique" "get_report_counts")
  | some get_report_counts =>
      let attack_techniques := get_report_counts db config.ML_ACCEPT_THRESHOLD
      .ok (db.report_technique_mappings.filter (fun m =>
        attack_techniques.any (fun a => m.attack_technique == a.technique.id)))

/-- `ReportGroupMapping.get_accepted_mappings()`: calls
`AttackGroup.get_report_counts(...)` and filters `attack_group__in` the
result; the attribute lookup is embedded via `AttackGroup.get_report_counts?`. -/
def ReportGroupMapping.get_accepted_mappings (db : DB) (config : Config) :
    Except PyError (List ReportGroupMapping) :=
  match AttackGroup.get_report_counts? with
  | none => .error (.AttributeError "AttackGroup" "get_report_counts")
  | some get_report_counts =>
      let attack_groups := get_report_counts db config.ML_ACCEPT_THRESHOLD
      .ok (db.report_group_mappings.filter (fun m =>
        attack_groups.any (fun g => m.attack_group == g.id)))

/-- The scorer-output argument of `SentenceTechniqueMapping.from_mapping`:
an object with an `attack_technique` external id and a `confidence`. -/
structure MappingProposal where
  attack_technique : String
  confidence : Rat
deriving DecidableEq, Repr

/-- `SentenceTechniqueMapping.from_mapping(mapping_input, mapping)`:
`mapping_input` is a `Sentence`; the method builds a new (unsaved) mapping,
resolving `mapping.attack_technique` with
`AttackTechnique.objects.get(attack_id=...)`, which raises `DoesNotExist`
when no row matches (and `MultipleObjectsReturned` when several do — the
`unique=True` constraint on `attack_id` rules that out in a well-formed
registry).  The method never calls `.save()`, so the database state is
returned unchanged in every case. -/
def SentenceTechniqueMapping.from_mapping (mapping_input : Sentence)
    (mapping : MappingProposal) (db : DB) :
    Except PyError SentenceTechniqueMapping × DB :=
  match db.attack_techniques.filter
      (fun a => a.attack_id == mapping.attack_technique) with
  | [] => (.error (.DoesNotExist "AttackTechnique"), db)
  | [at_row] =>
      (.ok { report := mapping_input.report
             sentence := mapping_input.id
             attack_technique := some at_row.id
             confidence := mapping.confidence }, db)
  | _ => (.error (.MultipleObjectsReturned "AttackTechnique"), db)

/-- A Python value passed to `create_from_file`: either a `django.core.files.File`
instance (carrying the file it wraps) or any other object. -/
inductive PyValue where
  | File (name : String)
  | other (descr : String)
deriving DecidableEq, Repr

/-- Auto-increment primary key for the `Document` table. -/
def nextDocumentId (db : DB) : Nat :=
  (db.documents.map Document.id).foldr max 0 + 1

/-- Auto-increment primary key for the `DocumentProcessingJob` table. -/
def nextJobId (db : DB) : Nat :=
  (db.document_processing_jobs.map DocumentProcessingJob.id).foldr max 0 + 1

/-- `DocumentProcessingJob.create_from_file(f)`: `assert isinstance(f, File)`
raises `AssertionError` for any non-`File` argument before anything is saved;
otherwise a `Document` holding `f` is saved, then a job referencing it with
the default status `"queued"` and default empty message, and the job is
returned. -/
def DocumentProcessingJob.create_from_file (f : PyValue) (db : DB) :
    Except PyError DocumentProcessingJob × DB :=
  match f with
  | .other _ => (.error .AssertionError, db)
  | .File name =>
      let doc : Document := { id := nextDocumentId db, docfile := name }
      let db1 : DB := { db with documents := db.documents ++ [doc] }
      let dpj : DocumentProcessingJob :=
        { id := nextJobId db1
          document := doc.id
          status := "queued"
          message := "" }
      (.ok dpj, { db1 with
        document_processing_jobs := db1.document_processing_jobs ++ [dpj] })

/-- `os.path.isfile(path)` over a filesystem modelled as the list of paths of
the files that exist. -/
def os_path_isfile (fs : List String) (path : String) : Bool :=
  fs.contains path

/-- `os.remove(path)`: removes the file, raising `FileNotFoundError` when the
path does not exist. -/
def os_remove (fs : List String) (path : String) : Except PyError (List String) :=
  if path ∈ fs then .ok (fs.erase path) else .error (.FileNotFoundError path)

/-- `_delete_file(path)`: removes the file only when `os.path.isfile` says it
exists; otherwise a silent no-op. -/
def _delete_file (fs : List String) (path : String) : Except PyError (List String) :=
  if os_path_isfile fs path then os_remove fs path else .ok fs

/-- `delete_file_post_delete` — the `post_delete` receiver for `Document`:
when the deleted instance has a backing file, `_delete_file` is called on its
path. -/
def delete_file_post_delete (fs : List String) (inst : Document) :
    Except PyError (List String) :=
  if inst.docfile ≠ "" then _delete_file fs inst.docfile else .ok fs

/-! ## Concrete database states used in scenario theorems and witnesses -/

/-- A database with every table empty. -/
def DB.empty : DB :=
  { attack_techniques := []
    attack_groups := []
    documents := []
    document_processing_jobs := []
    reports := []
    sentences := []
    sentence_technique_mappings := []
    sentence_group_mappings := []
    report_technique_mappings := []
    report_group_mappings := []}

/-- Technique T of the threshold scenario. -/
def exT1 : AttackTechnique :=
  { id := 1
    name := "Scheduled Task"
    stix_id := "attack-pattern--0001"
    attack_id := "T1053"
    attack_url := "https://attack.mitre.org/techniques/T1053"
    matrix := "mitre-attack" }

/-- The three mappings of the threshold scenario, one per sentence. -/
def exM1 : SentenceTechniqueMapping :=
  { report := 1, sentence := 1, attack_technique := some 1, confidence := 1 }

def exM2 : SentenceTechniqueMapping :=
  { report := 1, sentence := 2, attack_technique := some 1, confidence := 1 }

def exM3 : SentenceTechniqueMapping :=
  { report := 1, sentence := 3, attack_technique := some 1, confidence := 1 }

/-- Scenario database: technique T with three mapped sentences whose
dispositions are accept, accept and none. -/
def exDB1 : DB :=
  { DB.empty with
    attack_techniques := [exT1]
    sentences :=
      [{ id := 1, text := "s1", document := some 1, order := 0,
         report := 1, disposition := some Disposition.accept },
       { id := 2, text := "s2", document := some 1, order := 1000,
         report := 1, disposition := some Disposition.accept },
       { id := 3, text := "s3", document := some 1, order := 2000,
         report := 1, disposition := none }]
    sentence_technique_mappings := [exM1, exM2, exM3] }

/-- Technique used in the duplicate-mapping databases. -/
def exT2 : AttackTechnique :=
  { id := 1
    name := "Spearphishing Attachment"
    stix_id := "attack-pattern--0002"
    attack_id := "T1193"
    attack_url := "https://attack.mitre.org/techniques/T1193"
    matrix := "mitre-attack" }

/-- Database with one accepted sentence carrying TWO mapping rows to the same
technique (duplicate proposals are allowed by the ledger). -/
def exDB2 : DB :=
  { DB.empty with
    attack_techniques := [exT2]
    sentences :=
      [{ id := 1, text := "s1", document := some 1, order := 0,
         report := 1, disposition := some Disposition.accept }]
    sentence_technique_mappings :=
      [{ report := 1, sentence := 1, attack_technique := some 1, confidence := 1 },
       { report := 1, sentence := 1, attack_technique := some 1, confidence := 1 }] }

/-- Technique of the empty-mapping database. -/
def exT4 : AttackTechnique :=
  { id := 1
    name := "Credential Dumping"
    stix_id := "attack-pattern--0004"
    attack_id := "T1003"
    attack_url := "https://attack.mitre.org/techniques/T1003"
    matrix := "mitre-attack" }

/-- Database with one technique and no sentences or mappings at all. -/
def exDB4 : DB :=
  { DB.empty with attack_techniques := [exT4] }

/-- Technique used in the rejected-duplicate database. -/
def exT5 : AttackTechnique :=
  { id := 1
    name := "Remote File Copy"
    stix_id := "attack-pattern--0005"
    attack_id := "T1105"
    attack_url := "https://attack.mitre.org/techniques/T1105"
    matrix := "mitre-attack" }

/-- Database with one REJECTED sentence carrying two mapping rows to the same
technique. -/
def exDB5 : DB :=
  { DB.empty with
    attack_techniques := [exT5]
    sentences :=
      [{ id := 1, text := "s1", document := some 1, order := 0,
         report := 1, disposition := some Disposition.reject }]
    sentence_technique_mappings :=
      [{ report := 1, sentence := 1, attack_technique := some 1, confidence := 1 },
       { report := 1, sentence := 1, attack_technique := some 1, confidence := 1 }] }

/-- Modelled from the spec's words (not from the source, which has no such
query): the number of DISTINCT sentence-to-entry associations for one entry —
the count of sentence rows having at least one mapping row to the entry, each
counted once however many mapping rows repeat the pair. -/
def spec_distinct_total_sentences (db : DB) (t : AttackTechnique) : Nat :=
  db.sentences.countP (fun s =>
    db.sentence_technique_mappings.any (fun m =>
      m.sentence == s.id && m.attack_technique == some t.id))

/-- Modelled from the claim's words (not from the source): the count of
sentence rows whose disposition is `reject` and that have a non-null mapping
to the entry — each such sentence counted once. -/
def rejected_but_present (db : DB) (t : AttackTechnique) : Nat :=
  db.sentences.countP (fun s =>
    (s.disposition == some Disposition.reject) &&
      db.sentence_technique_mappings.any (fun m =>
        m.sentence == s.id && m.attack_technique == some t.id))

/-- The reject-disposition count over the same join that
`get_sentence_counts` counts over: one contribution per join row (mapping
occurrence), parallel to `accepted_sentences` and `pending_sentences`. -/
def AttackTechnique.rejected_sentences (db : DB) (t : AttackTechnique) : Nat :=
  (t.joinedSentences db).countP (fun s => s.disposition == some Disposition.reject)

/-- A sentence used as the `mapping_input` argument of `from_mapping`. -/
def exS8 : Sentence :=
  { id := 7, text := "s", document := none, order := 0, report := 3,
    disposition := none }

/-! ## Helper lemmas -/

theorem Option_any_true {α : Type} (o : Option α) :
    o.any (fun _ => true) = o.isSome := by
  cases o <;> rfl

theorem countP_filterMap {α β : Type} (f : α → Option β) (p : β → Bool) (l : List α) :
    (l.filterMap f).countP p = l.countP (fun a => (f a).any p) := by
  induction l with
  | nil => rfl
  | cons a l ih =>
    rw [List.filterMap_cons]
    cases hf : f a with
    | none =>
      show (List.filterMap f l).countP p = _
      rw [List.countP_cons]
      simp [hf, ih]
    | some b =>
      show (b :: List.filterMap f l).countP p = _
      rw [List.countP_cons, List.countP_cons]
      simp [hf, ih]

theorem countP_joinedSentences (db : DB) (t : AttackTechnique) (p : Sentence → Bool) :
    (t.joinedSentences db).countP p =
      db.sentence_technique_mappings.countP (fun m =>
        (m.attack_technique == some t.id) && (db.sentenceById m.sentence).any p) := by
  unfold AttackTechnique.joinedSentences
  rw [countP_filterMap]
  apply List.countP_congr
  intro m _
  cases hm : (m.attack_technique == some t.id) <;> simp [hm]

theorem mem_get_sentence_counts_elim {db : DB} {th : Nat} {a : AnnotatedTechnique}
    (ha : a ∈ AttackTechnique.get_sentence_counts db th) :
    ∃ t ∈ db.attack_techniques, AttackTechnique.annotate db t = a := by
  unfold AttackTechnique.get_sentence_counts at ha
  have h1 := (List.mem_filter.mp ha).1
  rw [List.mem_insertionSort] at h1
  exact List.mem_map.mp h1

theorem countP_disposition_partition (l : List Sentence) :
    l.countP (fun s => s.disposition == some Disposition.accept)
      + l.countP (fun s => s.disposition == none)
      + l.countP (fun s => s.disposition == some Disposition.reject) = l.length := by
  induction l with
  | nil => rfl
  | cons s l ih =>
    rcases hd : s.disposition with _ | d
    · simp [List.countP_cons, hd]; omega
    · cases d
      · simp [List.countP_cons, hd]; omega
      · simp [List.countP_cons, hd]; omega

theorem filter_attack_id_eq_singleton {l : List AttackTechnique} {eid : String}
    (hu : l.Pairwise (fun x y => x.attack_id ≠ y.attack_id))
    {a : AttackTechnique} (ha : a ∈ l) (he : a.attack_id = eid) :
    l.filter (fun x => x.attack_id == eid) = [a] := by
  induction l with
  | nil => cases ha
  | cons b l ih =>
    rcases List.pairwise_cons.mp hu with ⟨hb, hl⟩
    rcases List.mem_cons.mp ha with rfl | ha'
    · rw [List.filter_cons_of_pos (by simp [he])]
      rw [List.filter_eq_nil_iff.mpr]
      intro x hx
      simp only [beq_iff_eq]
      intro hxe
      exact hb x hx (by rw [he, hxe])
    · have hbne : (b.attack_id == eid) = false := by
        rw [beq_eq_false_iff_ne]
        intro hbe
        exact hb a ha' (by rw [hbe, he])
      rw [List.filter_cons_of_neg (by simp [hbne])]
      exact ih hl ha'

/-! ## Claim theorems -/

/-- Claim C1: with technique T having exactly 3 mapped sentences whose
dispositions are accept, accept and none, `get_sentence_counts` at
threshold 2 returns T annotated with accepted=2, pending=1, total=3, and
`get_accepted_mappings` (configured threshold 2) returns all three of T's
mappings, including the one whose sentence is still pending. -/
theorem C1_threshold_scenario :
    AttackTechnique.get_sentence_counts exDB1 2 =
      [{ technique := exT1, accepted_sentences := 2, pending_sentences := 1,
         total_sentences := 3 }] ∧
    SentenceTechniqueMapping.get_accepted_mappings exDB1
        { ML_ACCEPT_THRESHOLD := 2 } = [exM1, exM2, exM3] := by
  constructor
  · decide
  · decide

/-- Claim C2, counterexample: in a store holding two mapping rows for the same
sentence/technique pair, `get_sentence_counts` reports `total_sentences = 2`
although the pair is a single distinct sentence-to-entry association — the
source counts without `distinct=True`, so the claim as stated is false. -/
theorem C2_counterexample :
    ¬ (∀ a ∈ AttackTechnique.get_sentence_counts exDB2 0,
        a.total_sentences = spec_distinct_total_sentences exDB2 a.technique) := by
  decide

/-- Claim C2, amended: the three counts returned by `get_sentence_counts`
count each MAPPING ROW (with a resolvable sentence) once — duplicate rows for
the same sentence/entry pair are each counted — restricted, for accepted and
pending, to the matching disposition of the row's sentence. -/
theorem C2_amended_row_counts (db : DB) (accept_threshold : Nat)
    (a : AnnotatedTechnique)
    (ha : a ∈ AttackTechnique.get_sentence_counts db accept_threshold) :
    a.total_sentences = db.sentence_technique_mappings.countP (fun m =>
        (m.attack_technique == some a.technique.id) &&
          (db.sentenceById m.sentence).isSome) ∧
    a.accepted_sentences = db.sentence_technique_mappings.countP (fun m =>
        (m.attack_technique == some a.technique.id) &&
          (db.sentenceById m.sentence).any
            (fun s => s.disposition == some Disposition.accept)) ∧
    a.pending_sentences = db.sentence_technique_mappings.countP (fun m =>
        (m.attack_technique == some a.technique.id) &&
          (db.sentenceById m.sentence).any
            (fun s => s.disposition == none)) := by
  obtain ⟨t, ht, rfl⟩ := mem_get_sentence_counts_elim ha
  refine ⟨?_, ?_, ?_⟩
  · show AttackTechnique.total_sentences db t = _
    have h1 : AttackTechnique.total_sentences db t
        = (t.joinedSentences db).countP (fun _ => true) := by
      rw [AttackTechnique.total_sentences, List.countP_true]
    rw [h1, countP_joinedSentences]
    simp only [Option_any_true]
    rfl
  · show AttackTechnique.accepted_sentences db t = _
    rw [AttackTechnique.accepted_sentences, countP_joinedSentences]
    rfl
  · show AttackTechnique.pending_sentences db t = _
    rw [AttackTechnique.pending_sentences, countP_joinedSentences]
    rfl

/-- Claim C2, witness for the amended theorem at the duplicate-mapping
database. -/
theorem C2_amended_witness :
    (AttackTechnique.annotate exDB2 exT2
        ∈ AttackTechnique.get_sentence_counts exDB2 0) ∧
    ((AttackTechnique.annotate exDB2 exT2).total_sentences
        = exDB2.sentence_technique_mappings.countP (fun m =>
            (m.attack_technique ==
              some (AttackTechnique.annotate exDB2 exT2).technique.id) &&
              (exDB2.sentenceById m.sentence).isSome) ∧
     (AttackTechnique.annotate exDB2 exT2).accepted_sentences
        = exDB2.sentence_technique_mappings.countP (fun m =>
            (m.attack_technique ==
              some (AttackTechnique.annotate exDB2 exT2).technique.id) &&
              (exDB2.sentenceById m.sentence).any
                (fun s => s.disposition == some Disposition.accept)) ∧
     (AttackTechnique.annotate exDB2 exT2).pending_sentences
        = exDB2.sentence_technique_mappings.countP (fun m =>
            (m.attack_technique ==
              some (AttackTechnique.annotate exDB2 exT2).technique.id) &&
              (exDB2.sentenceById m.sentence).any
                (fun s => s.disposition == none))) :=
  ⟨by decide, C2_amended_row_counts exDB2 0 _ (by decide)⟩

/-- Claim C3: the report-granularity acceptance queries do not work as
specified — the source calls `AttackTechnique.get_report_counts` and
`AttackGroup.get_report_counts`, neither of which is ever defined, so both
`ReportTechniqueMapping.get_accepted_mappings` and
`ReportGroupMapping.get_accepted_mappings` raise `AttributeError` on every
database state instead of returning the qualifying report-level mappings. -/
theorem C3_report_queries_raise (db : DB) (config : Config) :
    ReportTechniqueMapping.get_accepted_mappings db config
        = .error (.AttributeError "AttackTechnique" "get_report_counts") ∧
    ReportGroupMapping.get_accepted_mappings db config
        = .error (.AttributeError "AttackGroup" "get_report_counts") :=
  ⟨rfl, rfl⟩

/-- Claim C4, counterexample: at threshold 0 the filter
`accepted_sentences >= 0` keeps every technique row, so a technique with no
mapped sentence at all is returned — the claim that such entries are not
returned is false. -/
theorem C4_counterexample :
    ¬ (∀ a ∈ AttackTechnique.get_sentence_counts exDB4 0,
        0 < AttackTechnique.total_sentences exDB4 a.technique) := by
  decide

/-- Claim C4, amended: `get_sentence_counts` with threshold 0 returns every
taxonomy entry of the registry exactly once — including entries with no
mapped sentences (every accepted count is `>= 0`). -/
theorem C4_amended_returns_all (db : DB) :
    ((AttackTechnique.get_sentence_counts db 0).map
        AnnotatedTechnique.technique).Perm db.attack_techniques := by
  unfold AttackTechnique.get_sentence_counts
  rw [List.filter_eq_self.mpr (by intro a _; simp)]
  have h1 := List.perm_insertionSort countOrder
    (db.attack_techniques.map (AttackTechnique.annotate db))
  have h2 := h1.map AnnotatedTechnique.technique
  have hmap : (db.attack_techniques.map (AttackTechnique.annotate db)).map
      AnnotatedTechnique.technique = db.attack_techniques := by
    rw [List.map_map]
    exact List.map_id'' (fun t => rfl) db.attack_techniques
  rw [hmap] at h2
  exact h2

/-- Claim C5, counterexample: with one REJECTED sentence carrying two mapping
rows to the same technique, the code's counts are accepted=0, pending=0,
total=2, while the claim's rejected-but-present (a count of SENTENCES) is 1,
so `accepted + pending + rejected-but-present = 1 ≠ 2 = total`. -/
theorem C5_counterexample :
    ¬ (∀ a ∈ AttackTechnique.get_sentence_counts exDB5 0,
        a.accepted_sentences + a.pending_sentences
            + rejected_but_present exDB5 a.technique = a.total_sentences) := by
  decide

/-- Claim C5, amended: `accepted + pending + rejected = total` holds for every
entry and store when `rejected` is counted over the same join the other three
counts use — one contribution per mapping occurrence whose sentence has
disposition `reject`, not per distinct rejected sentence. -/
theorem C5_amended_partition (db : DB) (accept_threshold : Nat)
    (a : AnnotatedTechnique)
    (ha : a ∈ AttackTechnique.get_sentence_counts db accept_threshold) :
    a.accepted_sentences + a.pending_sentences
        + AttackTechnique.rejected_sentences db a.technique
      = a.total_sentences := by
  obtain ⟨t, ht, rfl⟩ := mem_get_sentence_counts_elim ha
  show AttackTechnique.accepted_sentences db t + AttackTechnique.pending_sentences db t
      + AttackTechnique.rejected_sentences db t = AttackTechnique.total_sentences db t
  rw [AttackTechnique.accepted_sentences, AttackTechnique.pending_sentences,
    AttackTechnique.rejected_sentences, AttackTechnique.total_sentences]
  exact countP_disposition_partition (t.joinedSentences db)

/-- Claim C5, witness for the amended theorem at the rejected-duplicate
database. -/
theorem C5_amended_witness :
    (AttackTechnique.annotate exDB5 exT5
        ∈ AttackTechnique.get_sentence_counts exDB5 0) ∧
    ((AttackTechnique.annotate exDB5 exT5).accepted_sentences
        + (AttackTechnique.annotate exDB5 exT5).pending_sentences
        + AttackTechnique.rejected_sentences exDB5
            (AttackTechnique.annotate exDB5 exT5).technique
      = (AttackTechnique.annotate exDB5 exT5).total_sentences) :=
  ⟨by decide, C5_amended_partition exDB5 0 _ (by decide)⟩

/-- Claim C6: for a fixed store and thresholds `t1 <= t2`, the output of
`get_sentence_counts t2` is at most as long as that of
`get_sentence_counts t1`: the output size is monotonically non-increasing in
the threshold. -/
theorem C6_size_antitone (db : DB) (t1 t2 : Nat) (h : t1 ≤ t2) :
    (AttackTechnique.get_sentence_counts db t2).length
      ≤ (AttackTechnique.get_sentence_counts db t1).length := by
  unfold AttackTechnique.get_sentence_counts
  rw [← List.countP_eq_length_filter, ← List.countP_eq_length_filter]
  apply List.countP_mono_left
  intro a _ ha
  rw [decide_eq_true_iff] at ha ⊢
  omega

/-- Claim C6, witness at the threshold-scenario database with thresholds 1
and 2. -/
theorem C6_witness :
    1 ≤ 2 ∧
    (AttackTechnique.get_sentence_counts exDB1 2).length
      ≤ (AttackTechnique.get_sentence_counts exDB1 1).length :=
  ⟨by decide, C6_size_antitone exDB1 1 2 (by decide)⟩

/-- Claim C7: `get_sentence_counts` returns exactly the registry entries whose
accepted count meets the threshold (first conjunct), and the output is ordered
by accepted count descending with ties in ascending order of `attack_id`
(second conjunct). -/
theorem C7_membership_and_order (db : DB) (accept_threshold : Nat) :
    (∀ t : AttackTechnique,
      (∃ a ∈ AttackTechnique.get_sentence_counts db accept_threshold,
          a.technique = t) ↔
        (t ∈ db.attack_techniques ∧
          accept_threshold ≤ AttackTechnique.accepted_sentences db t)) ∧
    (AttackTechnique.get_sentence_counts db accept_threshold).Pairwise
      (fun a b => b.accepted_sentences < a.accepted_sentences ∨
        (a.accepted_sentences = b.accepted_sentences ∧
          a.technique.attack_id ≤ b.technique.attack_id)) := by
  constructor
  · intro t
    constructor
    · rintro ⟨a, ha, rfl⟩
      obtain ⟨t', ht', rfl⟩ := mem_get_sentence_counts_elim ha
      have hp := (List.mem_filter.mp ha).2
      rw [decide_eq_true_iff] at hp
      exact ⟨ht', hp⟩
    · rintro ⟨ht, hth⟩
      refine ⟨AttackTechnique.annotate db t, ?_, rfl⟩
      unfold AttackTechnique.get_sentence_counts
      refine List.mem_filter.mpr ⟨?_, ?_⟩
      · rw [List.mem_insertionSort]
        exact List.mem_map.mpr ⟨t, ht, rfl⟩
      · rw [decide_eq_true_iff]
        exact hth
  · have hs : (List.insertionSort countOrder
        (db.attack_techniques.map (AttackTechnique.annotate db))).Pairwise
          countOrder :=
      List.sorted_insertionSort countOrder _
    exact List.Pairwise.sublist (List.filter_sublist _) hs

/-- Claim C8: `from_mapping` with an external technique id absent from the
registry fails with `DoesNotExist` and leaves the store unchanged (the method
never saves anything, so no mapping row is created); with the id present in a
registry whose `attack_id`s are unique, it returns a new sentence-level
mapping carrying the sentence's report, the sentence, the resolved target and
the given confidence, again leaving the store unchanged. -/
theorem C8_from_mapping_behavior (db : DB) (mapping_input : Sentence)
    (mapping : MappingProposal) :
    ((∀ a ∈ db.attack_techniques, a.attack_id ≠ mapping.attack_technique) →
      SentenceTechniqueMapping.from_mapping mapping_input mapping db
        = (.error (.DoesNotExist "AttackTechnique"), db)) ∧
    (db.attack_techniques.Pairwise (fun x y => x.attack_id ≠ y.attack_id) →
      ∀ a ∈ db.attack_techniques, a.attack_id = mapping.attack_technique →
        SentenceTechniqueMapping.from_mapping mapping_input mapping db
          = (.ok { report := mapping_input.report
                   sentence := mapping_input.id
                   attack_technique := some a.id
                   confidence := mapping.confidence }, db)) := by
  constructor
  · intro habsent
    have hnil : db.attack_techniques.filter
        (fun a => a.attack_id == mapping.attack_technique) = [] := by
      rw [List.filter_eq_nil_iff]
      intro a ha
      simp only [beq_iff_eq]
      exact habsent a ha
    unfold SentenceTechniqueMapping.from_mapping
    rw [hnil]
  · intro hu a ha he
    have hone : db.attack_techniques.filter
        (fun x => x.attack_id == mapping.attack_technique) = [a] :=
      filter_attack_id_eq_singleton hu ha he
    unfold SentenceTechniqueMapping.from_mapping
    rw [hone]

/-- Claim C8, witness: both branches at the threshold-scenario registry —
an unknown id fails with `DoesNotExist`, the known id `T1053` resolves to a
new unsaved mapping. -/
theorem C8_witness :
    SentenceTechniqueMapping.from_mapping exS8 ⟨"T9999", 1⟩ exDB1
        = (.error (.DoesNotExist "AttackTechnique"), exDB1) ∧
    SentenceTechniqueMapping.from_mapping exS8 ⟨"T1053", 1⟩ exDB1
        = (.ok { report := 3, sentence := 7, attack_technique := some 1,
                 confidence := 1 }, exDB1) :=
  ⟨(C8_from_mapping_behavior exDB1 exS8 ⟨"T9999", 1⟩).1 (by decide),
   (C8_from_mapping_behavior exDB1 exS8 ⟨"T1053", 1⟩).2 (by decide)
     exT1 (by decide) (by decide)⟩

/-- Claim C9: the cleanup of a storage path that does not resolve to an
existing file is a silent idempotent no-op — `_delete_file` returns without
error and without change, and a second call on the result does the same. -/
theorem C9_cleanup_idempotent_noop (fs : List String) (path : String)
    (h : path ∉ fs) :
    _delete_file fs path = .ok fs ∧
    (_delete_file fs path).bind (fun fs2 => _delete_file fs2 path)
      = .ok fs := by
  have hif : os_path_isfile fs path = false := by
    simp only [os_path_isfile, List.elem_eq_mem, decide_eq_false_iff_not]
    exact h
  have h1 : _delete_file fs path = .ok fs := by
    rw [_delete_file, hif]
    rfl
  refine ⟨h1, ?_⟩
  rw [h1]
  exact h1

/-- Claim C9, witness: removing a path that is not among the stored files. -/
theorem C9_witness :
    ("missing.docx" ∉ (["report.docx"] : List String)) ∧
    (_delete_file ["report.docx"] "missing.docx" = .ok ["report.docx"] ∧
      (_delete_file ["report.docx"] "missing.docx").bind
          (fun fs2 => _delete_file fs2 "missing.docx")
        = .ok ["report.docx"]) :=
  ⟨by decide, C9_cleanup_idempotent_noop ["report.docx"] "missing.docx"
    (by decide)⟩

/-- Claim C10: `create_from_file` on a non-`File` argument fails the
`isinstance` assertion and persists nothing; on a `File` argument it persists
exactly one `Document` holding the file and one `DocumentProcessingJob`
referencing that document with status `"queued"`, and returns that job. -/
theorem C10_create_from_file_behavior (db : DB) (descr fname : String) :
    (DocumentProcessingJob.create_from_file (PyValue.other descr) db
      = (.error .AssertionError, db)) ∧
    (∃ doc : Document, ∃ dpj : DocumentProcessingJob,
      doc.docfile = fname ∧
      dpj.document = doc.id ∧
      dpj.status = "queued" ∧
      DocumentProcessingJob.create_from_file (PyValue.File fname) db
        = (.ok dpj,
           { db with
             documents := db.documents ++ [doc]
             document_processing_jobs :=
               db.document_processing_jobs ++ [dpj] })) := by
  constructor
  · rfl
  · refine ⟨{ id := nextDocumentId db, docfile := fname }, ?_⟩
    refine ⟨{ id := nextJobId db, document := nextDocumentId db,
              status := "queued", message := "" }, rfl, rfl, rfl, ?_⟩
    rfl
